import Mathlib

/-!
Shallow embedding of the monitora-mt fire-monitoring core: the CacheCore
TTL/in-flight layer (src/unnamed/part_001), the FireService listing
orchestrator (src/backend/apis/firms/services/FireService.js) and the
location-enrichment chain.  JavaScript `Map`s are modelled as insertion
ordered association lists, `Date.now()` as an explicit integer `now`
parameter, and JS numbers relevant to the claims (integers produced by
`parseInt`, page/limit arithmetic) as `Int`.
-/

namespace MonitoraMT

/-! ### CacheCore — TTL store (src/unnamed/part_001) -/

/-- The value stored by `setComTTL`: `{ dados, expiracao }`. -/
structure CacheEntry (V : Type) where
  dados : V
  expiracao : Int
deriving DecidableEq

/-- A JS `Map`, modelled as an insertion-ordered association list. -/
abbrev Store (K V : Type) := List (K × CacheEntry V)

/-- Models `map.get(chave)`: the value at the first (unique) matching key. -/
def mapGet [DecidableEq K] (map : Store K V) (chave : K) : Option (CacheEntry V) :=
  (map.find? (fun p => p.1 = chave)).map (fun p => p.2)

/-- Models `map.set(chave, e)`: replace in place when the key is present, else append. -/
def mapSet [DecidableEq K] (map : Store K V) (chave : K) (e : CacheEntry V) : Store K V :=
  if map.any (fun p => p.1 = chave) then
    map.map (fun p => if p.1 = chave then (chave, e) else p)
  else
    map ++ [(chave, e)]

/-- Models `map.delete(chave)`. -/
def mapDelete [DecidableEq K] (map : Store K V) (chave : K) : Store K V :=
  map.filter (fun p => !decide (p.1 = chave))

/-- Models `setComTTL(map, chave, dados, ttl)`: stores `{dados, expiracao: Date.now() + ttl}`;
`Date.now()` is the explicit `now` argument. -/
def setComTTL [DecidableEq K] (map : Store K V) (chave : K) (dados : V) (ttl : Int)
    (now : Int) : Store K V :=
  mapSet map chave { dados := dados, expiracao := now + ttl }

/-- Models `getValido(map, chave)`: returns the stored value (`none` models JS `null`)
and the store after the call (the JS code mutates the map by deleting an
expired entry). -/
def getValido [DecidableEq K] (map : Store K V) (chave : K) (now : Int) :
    Option V × Store K V :=
  match mapGet map chave with
  | none => (none, map)
  | some entry =>
    if entry.expiracao < now then (none, mapDelete map chave)
    else (some entry.dados, map)

/-! ### CacheCore — global switch (`cacheAtivo`, `ativarCache`, `desativarCache`) -/

/-- The module-level mutable state of CacheCore relevant to the enable/disable
switch: the `cacheAtivo` flag together with one of the managed stores. -/
structure CoreState (K V : Type) where
  cacheAtivo : Bool
  store : Store K V

/-- Models `ativarCache()`. -/
def ativarCache (st : CoreState K V) : CoreState K V :=
  { st with cacheAtivo := true }

/-- Models `desativarCache()`. -/
def desativarCache (st : CoreState K V) : CoreState K V :=
  { st with cacheAtivo := false }

/-- Models `isAtivo()`. -/
def isAtivo (st : CoreState K V) : Bool :=
  st.cacheAtivo

/-- Models `CacheCore.setComTTL` acting on the module state: the source helper writes
to the map unconditionally, without consulting `cacheAtivo`. -/
def coreSetComTTL [DecidableEq K] (st : CoreState K V) (chave : K) (dados : V)
    (ttl : Int) (now : Int) : CoreState K V :=
  { st with store := setComTTL st.store chave dados ttl now }

/-- Models `CacheCore.getValido` acting on the module state: the source helper reads
the map unconditionally, without consulting `cacheAtivo`. -/
def coreGetValido [DecidableEq K] (st : CoreState K V) (chave : K) (now : Int) :
    Option V × CoreState K V :=
  let r := getValido st.store chave now
  (r.1, { st with store := r.2 })

/-! ### Helper lemmas about the association-list Map model -/

theorem find?_replace [DecidableEq K] (map : Store K V) (chave : K) (e : CacheEntry V)
    (h : map.any (fun p => p.1 = chave) = true) :
    (map.map (fun p => if p.1 = chave then (chave, e) else p)).find?
      (fun p => p.1 = chave) = some (chave, e) := by
  induction map with
  | nil => simp at h
  | cons hd tl ih =>
    by_cases hhd : hd.1 = chave
    · simp [List.find?, hhd]
    · simp only [List.any_cons, decide_eq_true_eq, hhd, decide_False, Bool.false_or] at h
      simp only [List.map_cons, if_neg hhd, List.find?]
      have hd' : (decide (hd.1 = chave)) = false := by simp [hhd]
      rw [hd']
      exact ih h

theorem find?_append_fresh [DecidableEq K] (map : Store K V) (chave : K) (e : CacheEntry V)
    (h : map.any (fun p => p.1 = chave) = false) :
    (map ++ [(chave, e)]).find? (fun p => p.1 = chave) = some (chave, e) := by
  induction map with
  | nil => simp [List.find?]
  | cons hd tl ih =>
    simp only [List.any_cons, Bool.or_eq_false_iff, decide_eq_false_iff_not] at h
    simp only [List.cons_append, List.find?]
    have hd' : (decide (hd.1 = chave)) = false := by simp [h.1]
    rw [hd']
    exact ih (by simpa using h.2)

theorem mapGet_mapSet [DecidableEq K] (map : Store K V) (chave : K) (e : CacheEntry V) :
    mapGet (mapSet map chave e) chave = some e := by
  unfold mapGet mapSet
  by_cases h : map.any (fun p => p.1 = chave) = true
  · rw [if_pos h, find?_replace map chave e h]
    rfl
  · rw [if_neg h, find?_append_fresh map chave e (Bool.eq_false_iff.mpr h)]
    rfl

theorem mapGet_mapDelete [DecidableEq K] (map : Store K V) (chave : K) :
    mapGet (mapDelete map chave) chave = none := by
  unfold mapGet mapDelete
  induction map with
  | nil => simp
  | cons hd tl ih =>
    by_cases hhd : hd.1 = chave
    · simp only [List.filter_cons]
      have hd' : (!decide (hd.1 = chave)) = false := by simp [hhd]
      rw [hd', if_neg (by simp)]
      exact ih
    · simp only [List.filter_cons]
      have hd' : (!decide (hd.1 = chave)) = true := by simp [hhd]
      rw [if_pos hd']
      simp only [List.find?]
      have hd'' : (decide (hd.1 = chave)) = false := by simp [hhd]
      rw [hd'']
      exact ih

/-! ### Claim C1 — TTL set/get round trip and lazy expiry -/

/-- C1: immediately after `setComTTL(store, k, v, t)` with `t > 0`,
`getValido(store, k)` returns `v` (leaving the store untouched); any call made
strictly after the stored expiration instant `write time + t` returns `null`
and deletes the stale entry from the store as a side effect. -/
theorem c1_setComTTL_getValido [DecidableEq K] (m : Store K V) (k : K) (v : V)
    (t now now' : Int) (ht : 0 < t) (hlate : now + t < now') :
    getValido (setComTTL m k v t now) k now = (some v, setComTTL m k v t now) ∧
    getValido (setComTTL m k v t now) k now' =
      (none, mapDelete (setComTTL m k v t now) k) ∧
    mapGet (mapDelete (setComTTL m k v t now) k) k = none := by
  have hget : mapGet (setComTTL m k v t now) k = some { dados := v, expiracao := now + t } :=
    mapGet_mapSet m k _
  refine ⟨?_, ?_, mapGet_mapDelete _ k⟩
  · unfold getValido
    rw [hget]
    have : ¬ (now + t < now) := by omega
    simp [this]
  · unfold getValido
    rw [hget]
    simp [hlate]

/-- Witness for C1 at a concrete store, key, value, ttl and pair of instants. -/
theorem c1_setComTTL_getValido_witness :
    ((0 : Int) < 5 ∧ (0 : Int) + 5 < 6) ∧
    (getValido (setComTTL ([] : Store Nat Nat) 0 7 5 0) 0 0 =
        (some 7, setComTTL ([] : Store Nat Nat) 0 7 5 0) ∧
      getValido (setComTTL ([] : Store Nat Nat) 0 7 5 0) 0 6 =
        (none, mapDelete (setComTTL ([] : Store Nat Nat) 0 7 5 0) 0) ∧
      mapGet (mapDelete (setComTTL ([] : Store Nat Nat) 0 7 5 0) 0) 0 = none) :=
  ⟨⟨by decide, by decide⟩,
    c1_setComTTL_getValido ([] : Store Nat Nat) 0 7 5 0 6 (by decide) (by decide)⟩

/-! ### Claim C2 — the disable switch and `getValido` -/

/-- C2 counterexample: with the cache disabled by `desativarCache()`,
`getValido` still returns the unexpired value stored earlier — it is not a
forced miss, refuting the claim that every `getValido` returns `null` while
disabled.  Concretely, store key `0` with value `1` and ttl `10` at instant
`0`, disable, and read at instant `5`. -/
theorem c2_disabled_get_counterexample :
    isAtivo (desativarCache (coreSetComTTL (⟨true, []⟩ : CoreState Nat Nat) 0 1 10 0)) = false ∧
    (coreGetValido (desativarCache (coreSetComTTL (⟨true, []⟩ : CoreState Nat Nat) 0 1 10 0))
        0 5).1 = some 1 :=
  ⟨rfl, rfl⟩

/-- C2 (amended): `desativarCache()` only flips the flag reported by
`isAtivo()`; `getValido` does not consult the flag, so it returns unexpired
entries unchanged while disabled (callers must check `isAtivo()` themselves to
fall through), the stores are untouched by the switch, writes via `setComTTL`
remain permitted while disabled, and `ativarCache()` restores the flag with
the stores intact so re-enabling is transparent. -/
theorem c2_disabled_switch_amended [DecidableEq K] (st : CoreState K V) (k : K)
    (v : V) (t now : Int) :
    isAtivo (desativarCache st) = false ∧
    (desativarCache st).store = st.store ∧
    (coreGetValido (desativarCache st) k now).1 = (coreGetValido st k now).1 ∧
    (coreSetComTTL (desativarCache st) k v t now).store = setComTTL st.store k v t now ∧
    isAtivo (ativarCache (desativarCache st)) = true ∧
    (coreGetValido (ativarCache (desativarCache st)) k now).1 =
      (coreGetValido st k now).1 :=
  ⟨rfl, rfl, rfl, rfl, rfl, rfl⟩

/-! ### CacheCore — key builders (`JSON.stringify` over query objects) -/

/-- A primitive JSON value as it appears in the query shapes fed to the key
builders; `jabsent` models a JS `undefined` field. -/
inductive JPrim where
  | jnum (n : Int)
  | jstr (s : String)
  | jabsent
deriving DecidableEq

/-- A JS object literal: insertion-ordered fields with unique names. -/
abbrev JObj := List (String × JPrim)

/-- Serialization of one primitive, as `JSON.stringify` renders it. -/
def stringifyPrim : JPrim → String
  | .jnum n => toString n
  | .jstr s => "\"" ++ s ++ "\""
  | .jabsent => ""

/-- Models `JSON.stringify` drops object fields whose value is `undefined`. -/
def isDefined : JPrim → Bool
  | .jabsent => false
  | _ => true

/-- Models `JSON.stringify` of an object literal: fields in insertion order. -/
def stringifyObj (o : JObj) : String :=
  "\x7b" ++ String.intercalate ","
      ((o.filter (fun p => isDefined p.2)).map
        (fun p => "\"" ++ p.1 ++ "\":" ++ stringifyPrim p.2)) ++ "\x7d"

/-- Property access `q.field`: the value at the named field, `undefined` when
absent. -/
def jsonLookup (q : JObj) (k : String) : JPrim :=
  match q.find? (fun p => p.1 = k) with
  | some p => p.2
  | none => .jabsent

/-- Models `gerarChaveSensor(sensor, bbox, dayRange, date)`: builds a fresh object
literal with a fixed field order from positional arguments. -/
def gerarChaveSensor (sensor bbox dayRange date : JPrim) : String :=
  stringifyObj [("sensor", sensor), ("bbox", bbox), ("dayRange", dayRange), ("date", date)]

/-- Models `gerarChaveResultado({ dayRange, date, timeRange })`: destructures the named
fields from the argument and rebuilds a fixed-order literal. -/
def gerarChaveResultado (q : JObj) : String :=
  stringifyObj
    [("dayRange", jsonLookup q "dayRange"), ("date", jsonLookup q "date"),
      ("timeRange", jsonLookup q "timeRange")]

/-- Models `gerarChaveFireStats(query)`: `JSON.stringify` of the query object as
given, in its insertion order. -/
def gerarChaveFireStats (q : JObj) : String :=
  stringifyObj q

/-- Field lookup is invariant under reordering of an object with unique field
names. -/
theorem jsonLookup_perm {q₁ q₂ : JObj} (h : q₁.Perm q₂) :
    (q₁.map Prod.fst).Nodup → ∀ k, jsonLookup q₁ k = jsonLookup q₂ k := by
  induction h with
  | nil => intro _ k; rfl
  | cons x h ih =>
    intro nd k
    simp only [List.map_cons, List.nodup_cons] at nd
    unfold jsonLookup
    by_cases hx : x.1 = k
    · rw [List.find?_cons_of_pos _ (by simp [hx]), List.find?_cons_of_pos _ (by simp [hx])]
    · rw [List.find?_cons_of_neg _ (by simp [hx]), List.find?_cons_of_neg _ (by simp [hx])]
      exact ih nd.2 k
  | swap x y l =>
    intro nd k
    simp only [List.map_cons, List.nodup_cons, List.mem_cons] at nd
    have hxy : ¬ y.1 = x.1 := fun hEq => nd.1 (Or.inl hEq)
    unfold jsonLookup
    by_cases hy : y.1 = k
    · have hx' : ¬ x.1 = k := fun hx => hxy (hy.trans hx.symm)
      rw [List.find?_cons_of_pos _ (by simp [hy]),
        List.find?_cons_of_neg _ (by simp [hx']),
        List.find?_cons_of_pos _ (by simp [hy])]
    · by_cases hx : x.1 = k
      · rw [List.find?_cons_of_neg _ (by simp [hy]),
          List.find?_cons_of_pos _ (by simp [hx]),
          List.find?_cons_of_pos _ (by simp [hx])]
      · rw [List.find?_cons_of_neg _ (by simp [hy]), List.find?_cons_of_neg _ (by simp [hx]),
          List.find?_cons_of_neg _ (by simp [hx]), List.find?_cons_of_neg _ (by simp [hy])]
  | trans h₁ h₂ ih₁ ih₂ =>
    intro nd k
    have nd₂ := ((h₁.map Prod.fst).nodup_iff).mp nd
    exact (ih₁ nd k).trans (ih₂ nd₂ k)

/-! ### Claim C8 — key-builder stability under field reordering -/

/-- C8 counterexample: the fire-stats key builder serializes the query in its
insertion order, so the two semantically identical queries
`\x7bdayRange, date\x7d` and `\x7bdate, dayRange\x7d` (a permutation with
unique field names) produce different key strings. -/
theorem c8_fireStats_key_counterexample :
    ([("dayRange", JPrim.jstr "1"), ("date", JPrim.jstr "2024-06-06")] : JObj).Perm
        [("date", JPrim.jstr "2024-06-06"), ("dayRange", JPrim.jstr "1")] ∧
    (([("dayRange", JPrim.jstr "1"), ("date", JPrim.jstr "2024-06-06")] : JObj).map
        Prod.fst).Nodup ∧
    gerarChaveFireStats [("dayRange", JPrim.jstr "1"), ("date", JPrim.jstr "2024-06-06")] ≠
      gerarChaveFireStats [("date", JPrim.jstr "2024-06-06"), ("dayRange", JPrim.jstr "1")] :=
  ⟨by decide, by decide, by decide⟩

/-- C8 (amended): for queries with the same field values in any insertion
order (a permutation with unique field names), `gerarChaveResultado` produces
equal keys because it rebuilds a fixed-order literal from the destructured
fields, and `gerarChaveSensor` produces equal keys because its arguments are
positional field values; `gerarChaveFireStats`, however, serializes the query
in its given insertion order and may produce different keys for reordered
queries. -/
theorem c8_key_builders_amended (q₁ q₂ : JObj) (h : q₁.Perm q₂)
    (nd : (q₁.map Prod.fst).Nodup) :
    gerarChaveResultado q₁ = gerarChaveResultado q₂ ∧
    gerarChaveSensor (jsonLookup q₁ "sensor") (jsonLookup q₁ "bbox")
        (jsonLookup q₁ "dayRange") (jsonLookup q₁ "date") =
      gerarChaveSensor (jsonLookup q₂ "sensor") (jsonLookup q₂ "bbox")
        (jsonLookup q₂ "dayRange") (jsonLookup q₂ "date") := by
  have hl := jsonLookup_perm h nd
  constructor
  · unfold gerarChaveResultado
    rw [hl "dayRange", hl "date", hl "timeRange"]
  · rw [hl "sensor", hl "bbox", hl "dayRange", hl "date"]

/-- Witness for the amended C8 at a concrete reordered query pair. -/
theorem c8_key_builders_amended_witness :
    (([("dayRange", JPrim.jstr "1"), ("date", JPrim.jstr "2024-06-06")] : JObj).Perm
        [("date", JPrim.jstr "2024-06-06"), ("dayRange", JPrim.jstr "1")] ∧
      (([("dayRange", JPrim.jstr "1"), ("date", JPrim.jstr "2024-06-06")] : JObj).map
          Prod.fst).Nodup) ∧
    (gerarChaveResultado [("dayRange", JPrim.jstr "1"), ("date", JPrim.jstr "2024-06-06")] =
        gerarChaveResultado [("date", JPrim.jstr "2024-06-06"), ("dayRange", JPrim.jstr "1")] ∧
      gerarChaveSensor
          (jsonLookup [("dayRange", JPrim.jstr "1"), ("date", JPrim.jstr "2024-06-06")] "sensor")
          (jsonLookup [("dayRange", JPrim.jstr "1"), ("date", JPrim.jstr "2024-06-06")] "bbox")
          (jsonLookup [("dayRange", JPrim.jstr "1"), ("date", JPrim.jstr "2024-06-06")] "dayRange")
          (jsonLookup [("dayRange", JPrim.jstr "1"), ("date", JPrim.jstr "2024-06-06")] "date") =
        gerarChaveSensor
          (jsonLookup [("date", JPrim.jstr "2024-06-06"), ("dayRange", JPrim.jstr "1")] "sensor")
          (jsonLookup [("date", JPrim.jstr "2024-06-06"), ("dayRange", JPrim.jstr "1")] "bbox")
          (jsonLookup [("date", JPrim.jstr "2024-06-06"), ("dayRange", JPrim.jstr "1")] "dayRange")
          (jsonLookup [("date", JPrim.jstr "2024-06-06"), ("dayRange", JPrim.jstr "1")] "date")) :=
  ⟨⟨by decide, by decide⟩,
    c8_key_builders_amended _ _ (by decide) (by decide)⟩

/-! ### In-Flight Request Registry -/

/-- Modelled from the spec: the `getOrCreate` logic of the In-Flight Request
Registry is not under src/ — only the `inFlightRequests` Map declaration is
(src/unnamed/part_001, line 18).  Per §4.2, the state is the registry map
from keys to their pending computations, here paired with a log of factory
invocations; a pending computation is represented by its eventual settlement,
an `Except` value, so that all sharers observably receive the identical
result or identical error. -/
structure InFlightState (V : Type) where
  registry : List (String × Except String V)
  invocations : List String

/-- Modelled from the spec: `getOrCreate(key, factory)` returns the pending
computation registered for the key if one exists; otherwise it invokes the
factory (logging the invocation), registers the new pending computation and
returns it.  The check and the registration happen in one uninterrupted step
(single-threaded cooperative model). -/
def getOrCreate (st : InFlightState V) (k : String) (fres : Except String V) :
    Except String V × InFlightState V :=
  match st.registry.find? (fun p => p.1 = k) with
  | some p => (p.2, st)
  | none =>
    (fres, { registry := (k, fres) :: st.registry, invocations := st.invocations ++ [k] })

/-- Modelled from the spec: when the computation for a key settles (success or
failure), its registry entry is removed regardless of outcome. -/
def settle (st : InFlightState V) (k : String) : InFlightState V :=
  { st with registry := st.registry.filter (fun p => !decide (p.1 = k)) }

/-- The results seen by `n` concurrent callers of `getOrCreate` on the same
key, all issued before the computation settles. -/
def callRepeat (st : InFlightState V) (k : String) (fres : Except String V) :
    Nat → List (Except String V) × InFlightState V
  | 0 => ([], st)
  | n + 1 =>
    let r := getOrCreate st k fres
    let rs := callRepeat r.2 k fres n
    (r.1 :: rs.1, rs.2)

theorem find?_filter_not {α : Type} (l : List α) (p : α → Bool) :
    (l.filter (fun a => !p a)).find? p = none := by
  induction l with
  | nil => rfl
  | cons hd tl ih =>
    simp only [List.filter_cons]
    by_cases hp : p hd = true
    · rw [if_neg (by simp [hp])]
      exact ih
    · rw [if_pos (by simp [Bool.eq_false_iff.mpr hp])]
      simp only [List.find?]
      rw [Bool.eq_false_iff.mpr hp]
      exact ih

theorem getOrCreate_registered (st : InFlightState V) (k : String)
    (fres : Except String V) (p : String × Except String V)
    (h : st.registry.find? (fun q => q.1 = k) = some p) :
    getOrCreate st k fres = (p.2, st) := by
  unfold getOrCreate
  rw [h]

theorem callRepeat_registered (st : InFlightState V) (k : String)
    (fres : Except String V) (p : String × Except String V)
    (h : st.registry.find? (fun q => q.1 = k) = some p) :
    ∀ n, callRepeat st k fres n = (List.replicate n p.2, st) := by
  intro n
  induction n with
  | zero => rfl
  | succ m ih =>
    unfold callRepeat
    rw [getOrCreate_registered st k fres p h]
    simp only [ih, List.replicate_succ]

/-! ### Claim C9 — in-flight deduplication of concurrent calls -/

/-- C9: when `n + 1` concurrent `getOrCreate` calls on the same key `k` are
all issued before the first settles (no entry for `k` initially), the factory
is invoked exactly once (the invocation log grows by exactly one entry), all
callers receive the identical pending result — the same value or the same
error — and settling removes the registry entry for `k`, so a later call
finds no entry and starts fresh work, invoking the factory again. -/
theorem c9_getOrCreate_dedup (st : InFlightState V) (k : String)
    (fres fres' : Except String V) (n : Nat)
    (h : st.registry.find? (fun q => q.1 = k) = none) :
    callRepeat st k fres (n + 1) =
      (List.replicate (n + 1) fres,
        { registry := (k, fres) :: st.registry, invocations := st.invocations ++ [k] }) ∧
    ((settle (callRepeat st k fres (n + 1)).2 k).registry.find?
        (fun q => q.1 = k) = none) ∧
    (getOrCreate (settle (callRepeat st k fres (n + 1)).2 k) k fres').1 = fres' ∧
    (getOrCreate (settle (callRepeat st k fres (n + 1)).2 k) k fres').2.invocations =
      st.invocations ++ [k] ++ [k] := by
  have hcreate : getOrCreate st k fres =
      (fres, ⟨(k, fres) :: st.registry, st.invocations ++ [k]⟩) := by
    unfold getOrCreate
    rw [h]
  have hhead :
      ((⟨(k, fres) :: st.registry, st.invocations ++ [k]⟩ : InFlightState V)).registry.find?
        (fun q => q.1 = k) = some (k, fres) := by
    simp [List.find?]
  have hrep : callRepeat st k fres (n + 1) =
      (List.replicate (n + 1) fres,
        { registry := (k, fres) :: st.registry, invocations := st.invocations ++ [k] }) := by
    unfold callRepeat
    rw [hcreate]
    simp only [callRepeat_registered _ k fres (k, fres) hhead n, List.replicate_succ]
  have hsettled : (settle (callRepeat st k fres (n + 1)).2 k).registry.find?
      (fun q => q.1 = k) = none := by
    rw [hrep]
    exact find?_filter_not _ _
  refine ⟨hrep, hsettled, ?_, ?_⟩
  · unfold getOrCreate
    rw [hsettled]
  · unfold getOrCreate
    rw [hsettled]
    simp [settle, hrep]

/-- Witness for C9: three concurrent callers on key `"a"` in the empty
registry all receive `.ok 42`, the factory log records one invocation, and
after settlement a fresh call invokes the factory again. -/
theorem c9_getOrCreate_dedup_witness :
    (((⟨[], []⟩ : InFlightState Nat)).registry.find? (fun q => q.1 = "a") = none) ∧
    (callRepeat (⟨[], []⟩ : InFlightState Nat) "a" (Except.ok 42) (2 + 1) =
        (List.replicate (2 + 1) (Except.ok 42),
          { registry := [("a", Except.ok 42)], invocations := [] ++ ["a"] }) ∧
      ((settle (callRepeat (⟨[], []⟩ : InFlightState Nat) "a" (Except.ok 42) (2 + 1)).2
          "a").registry.find? (fun q => q.1 = "a") = none) ∧
      (getOrCreate (settle (callRepeat (⟨[], []⟩ : InFlightState Nat) "a"
          (Except.ok 42) (2 + 1)).2 "a") "a" (Except.ok 7)).1 = Except.ok 7 ∧
      (getOrCreate (settle (callRepeat (⟨[], []⟩ : InFlightState Nat) "a"
          (Except.ok 42) (2 + 1)).2 "a") "a" (Except.ok 7)).2.invocations =
        [] ++ ["a"] ++ ["a"]) :=
  ⟨rfl, c9_getOrCreate_dedup (⟨[], []⟩ : InFlightState Nat) "a" (Except.ok 42)
    (Except.ok 7) 2 rfl⟩

/-! ### FireService — query parsing and pagination
(src/backend/apis/firms/services/FireService.js) -/

/-- A JS value in the positions the pagination helpers inspect: `undefined`,
`NaN`, a (here integral) number, or a string. -/
inductive JSVal where
  | undef
  | nan
  | num (n : Int)
  | str (s : String)
deriving DecidableEq

/-- Models `parseInt(s, 10)`: skip leading spaces, optional sign, then the longest
digit prefix; `none` models `NaN` (no digits). -/
def parseIntBase10 (s : String) : Option Int :=
  let cs := s.toList.dropWhile (fun c => c = ' ')
  match cs with
  | '-' :: rest =>
    let ds := rest.takeWhile (fun c => c.isDigit)
    if ds.isEmpty then none
    else some (-(ds.foldl (fun a c => a * 10 + (c.toNat - 48)) 0 : Nat))
  | '+' :: rest =>
    let ds := rest.takeWhile (fun c => c.isDigit)
    if ds.isEmpty then none
    else some ((ds.foldl (fun a c => a * 10 + (c.toNat - 48)) 0 : Nat))
  | _ =>
    let ds := cs.takeWhile (fun c => c.isDigit)
    if ds.isEmpty then none
    else some ((ds.foldl (fun a c => a * 10 + (c.toNat - 48)) 0 : Nat))

/-- Models `parsePage(query)`: `parseInt(query.page, 10) || 1` — an absent page,
a non-numeric page, or a page parsing to `0` defaults to `1`; every other
parsed value (negative ones included) is returned unchanged. -/
def parsePage (page : Option String) : Int :=
  match page with
  | none => 1
  | some s =>
    match parseIntBase10 s with
    | none => 1
    | some n => if n = 0 then 1 else n

/-- Models `parseLimit(query)`: `parseInt(query.limit, 10) || 25`. -/
def parseLimit (limit : Option String) : Int :=
  match limit with
  | none => 25
  | some s =>
    match parseIntBase10 s with
    | none => 25
    | some n => if n = 0 then 25 else n

/-- Index resolution of `Array.prototype.slice`: a negative index counts from
the end of the array, and the result is clamped to `[0, length]`
(`Int.toNat` maps negative integers to `0`). -/
def sliceIndex (len : Nat) (i : Int) : Nat :=
  if i < 0 then ((len : Int) + i).toNat else (min i (len : Int)).toNat

/-- Models `Array.prototype.slice(start, stop)`. -/
def jsSlice (l : List α) (start stop : Int) : List α :=
  (l.drop (sliceIndex l.length start)).take
    (sliceIndex l.length stop - sliceIndex l.length start)

/-- Models `getPagedData(sorted, page, limit)`: `sorted.slice((page-1)*limit,
(page-1)*limit + limit)`. -/
def getPagedData (sorted : List α) (page limit : Int) : List α :=
  jsSlice sorted ((page - 1) * limit) ((page - 1) * limit + limit)

/-- Models `getTotalPages(sorted, limit)`: `0` unless the limit is a positive number
(a falsy limit — `0`, `NaN`, `undefined` — or a non-number returns `0`),
else `Math.ceil(sorted.length / limit)`. -/
def getTotalPages (sorted : List α) (limit : JSVal) : Nat :=
  match limit with
  | .num n => if n ≤ 0 then 0 else (sorted.length + (n.toNat - 1)) / n.toNat
  | _ => 0

/-! ### FireService — the `all=true` handler -/

/-- Models `MAX_RECORDS_ALL`. -/
def MAX_RECORDS_ALL : Nat := 10000

/-- A normalized hotspot record; the fields the claims do not inspect are
abstracted into an opaque payload. -/
structure Fire where
  latitude : Int
  longitude : Int
  sensor : Nat
  payload : Nat
deriving DecidableEq

/-- Modelled from the spec: `FireModel.sortFires` is not under src/ (only
its import and call sites are); §1 consumes it as a black box that accepts a sort
key and returns the records sorted by it, defaulting to the sensor
identifier.  Modelled as an insertion sort by the sensor field. -/
def sortFires (fires : List Fire) (sortKey : Option String) : List Fire :=
  let _ := sortKey
  fires.insertionSort (fun a b => a.sensor ≤ b.sensor)

/-- The pagination block of the response metadata. -/
structure Paginacao where
  paginaAtual : Int
  itensPorPagina : Int
  totalPaginas : Nat
deriving DecidableEq

/-- Models `#buildMetadata`, restricted to the fields the claims inspect
(`ordenacao` from `_getSort`, `totalFocos`, and the optional `paginacao`
block); the echoed date/day-range parameters and the wall-clock
`timestampConsulta` are abstracted away. -/
structure Metadados where
  ordenacao : String
  totalFocos : Nat
  paginacao : Option Paginacao
deriving DecidableEq

/-- Models `#getAllFiresNoPagination(params, query)`, taking the fetched and
normalized record list as input (the upstream fetch is external): throws the
over-limit error before sorting when the count exceeds `MAX_RECORDS_ALL`,
otherwise returns the full sorted list with `totalFocos = sorted.length` and
no pagination block. -/
def getAllFiresNoPagination (fires : List Fire) (sortKey : Option String) :
    Except String (Metadados × List Fire) :=
  if fires.length > MAX_RECORDS_ALL then
    Except.error ("A requisição excede o limite de " ++ toString MAX_RECORDS_ALL ++
      " registros. Refine seus filtros ou use paginação.")
  else
    let sorted := sortFires fires sortKey
    Except.ok
      ({ ordenacao := sortKey.getD "sensor", totalFocos := sorted.length, paginacao := none },
        sorted)

/-! ### Slice lemmas -/

theorem jsSlice_eq_drop_take (l : List α) (start stop : Int)
    (hs : 0 ≤ start) (he : start ≤ stop) :
    jsSlice l start stop = (l.drop start.toNat).take (stop.toNat - start.toNat) := by
  unfold jsSlice sliceIndex
  rw [if_neg (by omega), if_neg (by omega)]
  by_cases hlen : start ≤ (l.length : Int)
  · rw [min_eq_left hlen]
    by_cases hstop : stop ≤ (l.length : Int)
    · rw [min_eq_left hstop]
    · rw [min_eq_right (by omega)]
      have hld : (l.drop start.toNat).length = l.length - start.toNat :=
        List.length_drop _ _
      rw [List.take_of_length_le (by omega), List.take_of_length_le (by omega)]
  · rw [min_eq_right (by omega), min_eq_right (by omega)]
    rw [Int.toNat_natCast, List.drop_length,
      List.drop_eq_nil_of_le (by omega : l.length ≤ start.toNat)]
    simp

/-! ### Claim C3 — `all=true` mode: over-limit error or the full sorted set -/

/-- C3: in `all=true` mode, a fetched-and-normalized record list longer than
`MAX_RECORDS_ALL = 10000` raises the explicit over-limit error with no data;
otherwise no error is raised and the full sorted set — exactly the input
records, as a permutation of length `L` — is returned with
`totalFocos = L`. -/
theorem c3_all_mode_over_limit (fires : List Fire) (sortKey : Option String) :
    (fires.length > MAX_RECORDS_ALL →
      getAllFiresNoPagination fires sortKey =
        Except.error ("A requisição excede o limite de " ++ toString MAX_RECORDS_ALL ++
          " registros. Refine seus filtros ou use paginação.")) ∧
    (fires.length ≤ MAX_RECORDS_ALL →
      ∃ meta sorted, getAllFiresNoPagination fires sortKey = Except.ok (meta, sorted) ∧
        sorted.length = fires.length ∧ sorted.Perm fires ∧
        meta.totalFocos = fires.length ∧ meta.paginacao = none) := by
  constructor
  · intro h
    unfold getAllFiresNoPagination
    rw [if_pos h]
  · intro h
    refine ⟨{ ordenacao := sortKey.getD "sensor",
              totalFocos := (sortFires fires sortKey).length, paginacao := none },
        sortFires fires sortKey, ?_, ?_, ?_, ?_, rfl⟩
    · unfold getAllFiresNoPagination
      rw [if_neg (by omega)]
    · exact List.length_insertionSort _ fires
    · exact List.perm_insertionSort _ fires
    · exact List.length_insertionSort _ fires

/-- Witness for C3: a 10001-record list raises the over-limit error; a
single-record list is returned whole with `totalFocos = 1`. -/
theorem c3_all_mode_over_limit_witness :
    ((List.replicate 10001 (⟨0, 0, 0, 0⟩ : Fire)).length > MAX_RECORDS_ALL ∧
      getAllFiresNoPagination (List.replicate 10001 (⟨0, 0, 0, 0⟩ : Fire)) none =
        Except.error ("A requisição excede o limite de " ++ toString MAX_RECORDS_ALL ++
          " registros. Refine seus filtros ou use paginação.")) ∧
    (([⟨0, 0, 0, 0⟩] : List Fire).length ≤ MAX_RECORDS_ALL ∧
      ∃ meta sorted,
        getAllFiresNoPagination ([⟨0, 0, 0, 0⟩] : List Fire) none = Except.ok (meta, sorted) ∧
        sorted.length = ([⟨0, 0, 0, 0⟩] : List Fire).length ∧
        sorted.Perm ([⟨0, 0, 0, 0⟩] : List Fire) ∧
        meta.totalFocos = ([⟨0, 0, 0, 0⟩] : List Fire).length ∧ meta.paginacao = none) := by
  have hbig : (List.replicate 10001 (⟨0, 0, 0, 0⟩ : Fire)).length > MAX_RECORDS_ALL := by
    rw [List.length_replicate]
    decide
  have hsmall : (([⟨0, 0, 0, 0⟩] : List Fire)).length ≤ MAX_RECORDS_ALL := by decide
  exact ⟨⟨hbig, (c3_all_mode_over_limit _ none).1 hbig⟩,
    ⟨hsmall, (c3_all_mode_over_limit _ none).2 hsmall⟩⟩

/-! ### Claim C4 — paged mode: slice window and total page count -/

/-- C4: in paged mode, for a parsed page `p ≥ 1` and parsed limit `l ≥ 1`,
`getPagedData` returns exactly the records at sorted indices
`[(p-1)*l, p*l)`; and `getTotalPages` equals the ceiling of
`total / l` for a positive numeric limit, and `0` when the limit is absent
(`undefined`), non-numeric (`NaN` or a string), or non-positive. -/
theorem c4_paged_slice_totalPages (sorted : List α) (p l : Int)
    (hp : 1 ≤ p) (hl : 1 ≤ l) :
    getPagedData sorted p l = (sorted.drop ((p - 1) * l).toNat).take l.toNat ∧
    getTotalPages sorted (JSVal.num l) = sorted.length ⌈/⌉ l.toNat ∧
    getTotalPages sorted JSVal.undef = 0 ∧
    getTotalPages sorted JSVal.nan = 0 ∧
    (∀ s, getTotalPages sorted (JSVal.str s) = 0) ∧
    (∀ m : Int, m ≤ 0 → getTotalPages sorted (JSVal.num m) = 0) := by
  refine ⟨?_, ?_, rfl, rfl, fun s => rfl, fun m hm => ?_⟩
  · unfold getPagedData
    have hs : 0 ≤ (p - 1) * l := mul_nonneg (by omega) (by omega)
    rw [jsSlice_eq_drop_take sorted _ _ hs (by omega)]
    congr 1
    omega
  · simp only [getTotalPages]
    rw [if_neg (by omega), Nat.ceilDiv_eq_add_pred_div]
    congr 1
    omega
  · simp only [getTotalPages]
    rw [if_pos hm]

/-- Witness for C4 at the example of the spec: 60 records with `page=2, limit=25`
yield the records at sorted indices `[25, 50)` and `totalPaginas = 3`. -/
theorem c4_paged_slice_totalPages_witness :
    ((1 : Int) ≤ 2 ∧ (1 : Int) ≤ 25) ∧
    (getPagedData (List.range 60) 2 25 =
        ((List.range 60).drop (((2 : Int) - 1) * 25).toNat).take (25 : Int).toNat ∧
      getTotalPages (List.range 60) (JSVal.num 25) = (List.range 60).length ⌈/⌉ (25 : Int).toNat ∧
      getTotalPages (List.range 60) JSVal.undef = 0 ∧
      getTotalPages (List.range 60) JSVal.nan = 0 ∧
      (∀ s, getTotalPages (List.range 60) (JSVal.str s) = 0) ∧
      (∀ m : Int, m ≤ 0 → getTotalPages (List.range 60) (JSVal.num m) = 0)) ∧
    getPagedData (List.range 60) 2 25 = ((List.range 60).drop 25).take 25 ∧
    getTotalPages (List.range 60) (JSVal.num 25) = 3 :=
  ⟨⟨by decide, by decide⟩,
    c4_paged_slice_totalPages (List.range 60) 2 25 (by decide) (by decide),
    by decide, by decide⟩

/-! ### Claim C10 — negative pages slice from the end of the list -/

/-- C10: a `page` query value parsing to a negative integer `p` is returned
unchanged by `parsePage` (only absent, non-numeric, or zero pages default
to `1`); then for any record list and limit `l > 0`, `getPagedData` computes
a negative start index `(p-1)*l` and — per the JS `slice` semantics — returns
the window of records whose bounds are counted from the end of the list
(indices `length + (p-1)*l` to `length + p*l`, clamped at `0`), rather than
an empty page or the first page. -/
theorem c10_negative_page_slices_from_end (s : String) (p : Int) (sorted : List α)
    (l : Int) (hparse : parseIntBase10 s = some p) (hneg : p < 0) (hl : 0 < l) :
    parsePage (some s) = p ∧
    (p - 1) * l < 0 ∧
    getPagedData sorted p l =
      (sorted.drop ((sorted.length : Int) + (p - 1) * l).toNat).take
        (((sorted.length : Int) + p * l).toNat -
          ((sorted.length : Int) + (p - 1) * l).toNat) := by
  have hstart : (p - 1) * l < 0 := mul_neg_of_neg_of_pos (by omega) hl
  have hstop : (p - 1) * l + l = p * l := by ring
  have hstopneg : p * l < 0 := mul_neg_of_neg_of_pos hneg hl
  refine ⟨?_, hstart, ?_⟩
  · simp only [parsePage, hparse]
    rw [if_neg (by omega)]
  · unfold getPagedData jsSlice sliceIndex
    rw [hstop, if_pos hstart, if_pos hstopneg]

/-- Witness for C10: `page=-1, limit=25` over 60 records returns the records
at indices `[10, 35)` — a from-the-end window, neither empty nor the first
page. -/
theorem c10_negative_page_slices_from_end_witness :
    (parseIntBase10 "-1" = some (-1) ∧ (-1 : Int) < 0 ∧ (0 : Int) < 25) ∧
    (parsePage (some "-1") = -1 ∧
      ((-1 : Int) - 1) * 25 < 0 ∧
      getPagedData (List.range 60) (-1) 25 =
        ((List.range 60).drop (((List.range 60).length : Int) + ((-1 : Int) - 1) * 25).toNat).take
          ((((List.range 60).length : Int) + (-1 : Int) * 25).toNat -
            (((List.range 60).length : Int) + ((-1 : Int) - 1) * 25).toNat)) ∧
    getPagedData (List.range 60) (-1) 25 = ((List.range 60).drop 10).take 25 ∧
    getPagedData (List.range 60) (-1) 25 ≠ [] ∧
    getPagedData (List.range 60) (-1) 25 ≠ getPagedData (List.range 60) 1 25 :=
  ⟨⟨by decide, by decide, by decide⟩,
    c10_negative_page_slices_from_end "-1" (-1) (List.range 60) 25 (by decide)
      (by decide) (by decide),
    by decide, by decide, by decide⟩

/-! ### FireService — the Location Enrichment Chain (`addLocationData`) -/

/-- The `localizacao` object attached to a record; `none` fields model absent
JS properties.  `cidade` is the frontend-compat field set by
`addMunicipalityLocationData`. -/
structure Localizacao where
  municipio : Option String
  comandoRegional : Option String
  cidade : Option String
deriving DecidableEq

/-- The per-record point passed to both locating collaborators:
`{ longitude, latitude, fireData }` (the numeric coordinates after
`parseFloat`, here already numeric). -/
structure GeoPoint where
  longitude : Int
  latitude : Int
  fireData : Fire
deriving DecidableEq

/-- A record as returned by the enrichment chain: the fire data plus an
optional `localizacao` object. -/
structure LocatedFire where
  fireData : Fire
  localizacao : Option Localizacao
deriving DecidableEq

/-- An item of a reverse-geocoding batch result: `{ fireData, localizacao }`. -/
structure GeoResult where
  fireData : Fire
  localizacao : Localizacao
deriving DecidableEq

/-- The point built from a fire record in `addLocationData` and
`addMunicipalityLocationData`. -/
def toPoint (fire : Fire) : GeoPoint :=
  { longitude := fire.longitude, latitude := fire.latitude, fireData := fire }

/-- Models `foco.localizacao?.municipio || "N/A"`: the municipality when it is a
truthy (non-empty) string, else the literal `"N/A"`. -/
def cidadeCompat (loc : Option Localizacao) : String :=
  match loc with
  | some l =>
    match l.municipio with
    | some m => if m = "" then "N/A" else m
    | none => "N/A"
  | none => "N/A"

/-- Models `{...foco, localizacao: {...foco.localizacao, cidade: ...}}`: keep the
existing localization fields (an absent object spreads to an empty one) and
set the compat `cidade` field. -/
def patchCidade (foco : LocatedFire) : LocatedFire :=
  { foco with
    localizacao := some
      { (foco.localizacao.getD ⟨none, none, none⟩) with
        cidade := some (cidadeCompat foco.localizacao) } }

/-- Models `addMunicipalityLocationData(fires)`, parameterized by the external
`GeoMunicipalityMatcher.batchLocate` collaborator (not under src/): map the
fires to points, batch-locate them, and standardize each result with the
compat `cidade` field.  A thrown error in the collaborator is an
`Except.error`. -/
def addMunicipalityLocationData
    (batchLocate : List GeoPoint → Except String (List LocatedFire))
    (fires : List Fire) : Except String (List LocatedFire) :=
  match batchLocate (fires.map toPoint) with
  | Except.error e => Except.error e
  | Except.ok localizados => Except.ok (localizados.map patchCidade)

/-- The per-record completeness test of `addLocationData`:
`f.localizacao && f.localizacao.municipio && f.localizacao.municipio !== "N/A"`
(JS truthiness: the object must be present and the municipality a non-empty
string other than `"N/A"`). -/
def locTruthy (f : LocatedFire) : Bool :=
  match f.localizacao with
  | none => false
  | some l =>
    match l.municipio with
    | none => false
    | some m => m ≠ "" && m ≠ "N/A"

/-- Models `located.every(...)` from `addLocationData`. -/
def allLocated (located : List LocatedFire) : Bool :=
  located.all locTruthy

/-- The fallback branch of `addLocationData`: geocode the points of the
ENTIRE batch of fires and merge each result as
`{...item.fireData, localizacao: item.localizacao}`. -/
def fallbackGeocode (batchGeocode : List GeoPoint → Except String (List GeoResult))
    (fires : List Fire) : Except String (List LocatedFire) :=
  match batchGeocode (fires.map toPoint) with
  | Except.error e => Except.error e
  | Except.ok locations =>
    Except.ok (locations.map fun item =>
      { fireData := item.fireData, localizacao := some item.localizacao })

/-- Models `addLocationData(fires)`, parameterized by the two external collaborators:
try the primary GeoJSON pass and accept it if every record is resolved;
any error of the primary pass — including the synthetic
`"GeoJSON incompleto ou invalido"` error thrown when some record is
unresolved — is caught and triggers the Mapbox fallback over the whole
batch, whose own error is not caught. -/
def addLocationData (batchLocate : List GeoPoint → Except String (List LocatedFire))
    (batchGeocode : List GeoPoint → Except String (List GeoResult))
    (fires : List Fire) : Except String (List LocatedFire) :=
  let primary : Except String (List LocatedFire) :=
    match addMunicipalityLocationData batchLocate fires with
    | Except.error e => Except.error e
    | Except.ok located =>
      if allLocated located then Except.ok located
      else Except.error "GeoJSON incompleto ou inválido (há focos sem município)"
  match primary with
  | Except.ok located => Except.ok located
  | Except.error _ => fallbackGeocode batchGeocode fires

/-- Whether the primary pass succeeds and resolves every record. -/
def primaryResolved (batchLocate : List GeoPoint → Except String (List LocatedFire))
    (fires : List Fire) : Bool :=
  match addMunicipalityLocationData batchLocate fires with
  | Except.error _ => false
  | Except.ok located => allLocated located

/-- The locality name produced by the modelled geocoder from the third-party
resolution: the best available locality, `"N/A"` when none. -/
def geoName (res : Option String) : String :=
  match res with
  | some s => if s = "" then "N/A" else s
  | none => "N/A"

/-- Modelled from the spec: `MapboxReverseGeocoder.batchGeocode` is not under
src/.  Per §4.4 step 3 and the §3 invariant, it maps every submitted point to
its best available locality name — `"N/A"` when no resolution is possible,
never an empty or missing city — with no regional-command value; the
third-party resolution itself is the `resolve` oracle. -/
def batchGeocode (resolve : Int × Int → Option String) (points : List GeoPoint) :
    Except String (List GeoResult) :=
  Except.ok (points.map fun p =>
    { fireData := p.fireData,
      localizacao :=
        { municipio := some (geoName (resolve (p.longitude, p.latitude))),
          comandoRegional := none,
          cidade := some (geoName (resolve (p.longitude, p.latitude))) } })

/-- The `localizacao.cidade` field of an enriched record. -/
def cidadeOf (r : LocatedFire) : Option String :=
  match r.localizacao with
  | some l => l.cidade
  | none => none

/-- The `localizacao.municipio` field of an enriched record — the
municipality the resolving pass attached to it, when one exists. -/
def municipioOf (r : LocatedFire) : Option String :=
  match r.localizacao with
  | some l => l.municipio
  | none => none

theorem addLocationData_of_resolved
    (batchLocate : List GeoPoint → Except String (List LocatedFire))
    (batchGeocode' : List GeoPoint → Except String (List GeoResult))
    (fires : List Fire) (located : List LocatedFire)
    (hok : addMunicipalityLocationData batchLocate fires = Except.ok located)
    (hall : allLocated located = true) :
    addLocationData batchLocate batchGeocode' fires = Except.ok located := by
  unfold addLocationData
  rw [hok]
  simp only [hall, if_true]

theorem addLocationData_of_unresolved
    (batchLocate : List GeoPoint → Except String (List LocatedFire))
    (batchGeocode' : List GeoPoint → Except String (List GeoResult))
    (fires : List Fire)
    (h : primaryResolved batchLocate fires = false) :
    addLocationData batchLocate batchGeocode' fires =
      fallbackGeocode batchGeocode' fires := by
  unfold addLocationData
  unfold primaryResolved at h
  cases hml : addMunicipalityLocationData batchLocate fires with
  | error e => simp
  | ok located =>
    rw [hml] at h
    simp only at h
    simp only [h]
    rw [if_neg (by simp [h])]

theorem cidadeCompat_ne_empty : ∀ (loc : Option Localizacao), cidadeCompat loc ≠ ""
  | none => by decide
  | some ⟨none, _, _⟩ => by
    show ("N/A" : String) ≠ ""
    decide
  | some ⟨some m, _, _⟩ => by
    show (if m = "" then "N/A" else m) ≠ ""
    by_cases hm : m = ""
    · rw [if_pos hm]
      decide
    · rw [if_neg hm]
      exact hm

theorem geoName_ne_empty : ∀ (res : Option String), geoName res ≠ ""
  | none => by decide
  | some s => by
    show (if s = "" then "N/A" else s) ≠ ""
    by_cases hs : s = ""
    · rw [if_pos hs]
      decide
    · rw [if_neg hs]
      exact hs

/-! ### Claim C5 — accept the complete primary pass, else whole-batch fallback -/

/-- C5: if the primary point-in-polygon pass resolves every record to a
municipality other than `"N/A"`, its result is accepted and returned and the
reverse geocoder is never consulted (the result is independent of it); if at
least one record is unresolved, or the polygon pass itself fails, the
fallback geocoder is invoked on the points of the ENTIRE batch of fires —
`fires.map toPoint` — not only the unresolved ones. -/
theorem c5_primary_accept_or_batch_fallback
    (batchLocate : List GeoPoint → Except String (List LocatedFire))
    (bg bg' : List GeoPoint → Except String (List GeoResult)) (fires : List Fire) :
    (primaryResolved batchLocate fires = true →
      (∀ located, addMunicipalityLocationData batchLocate fires = Except.ok located →
        addLocationData batchLocate bg fires = Except.ok located) ∧
      addLocationData batchLocate bg fires = addLocationData batchLocate bg' fires) ∧
    (primaryResolved batchLocate fires = false →
      addLocationData batchLocate bg fires = fallbackGeocode bg fires ∧
      (∀ locations, bg (fires.map toPoint) = Except.ok locations →
        addLocationData batchLocate bg fires =
          Except.ok (locations.map fun item =>
            { fireData := item.fireData, localizacao := some item.localizacao }))) := by
  constructor
  · intro hres
    unfold primaryResolved at hres
    cases hml : addMunicipalityLocationData batchLocate fires with
    | error e =>
      rw [hml] at hres
      simp at hres
    | ok located =>
      rw [hml] at hres
      simp only at hres
      refine ⟨?_, ?_⟩
      · intro located' hml'
        injection hml' with he
        subst he
        exact addLocationData_of_resolved batchLocate bg fires located hml hres
      · rw [addLocationData_of_resolved batchLocate bg fires located hml hres,
          addLocationData_of_resolved batchLocate bg' fires located hml hres]
  · intro hres
    have hfb := addLocationData_of_unresolved batchLocate bg fires hres
    refine ⟨hfb, ?_⟩
    intro locations hbg
    rw [hfb]
    unfold fallbackGeocode
    rw [hbg]

/-- Witness for C5: a one-record batch.  A fully-resolving polygon pass is
accepted identically under two different geocoders; an erroring polygon pass
routes the whole batch to the geocoder. -/
theorem c5_primary_accept_or_batch_fallback_witness :
    (primaryResolved
        (fun ps => Except.ok (ps.map fun p =>
          { fireData := p.fireData,
            localizacao := some { municipio := some "Cuiaba", comandoRegional := none,
                                  cidade := none } }))
        [⟨1, 2, 3, 4⟩] = true ∧
      addLocationData
        (fun ps => Except.ok (ps.map fun p =>
          { fireData := p.fireData,
            localizacao := some { municipio := some "Cuiaba", comandoRegional := none,
                                  cidade := none } }))
        (fun _ => Except.ok []) [⟨1, 2, 3, 4⟩] =
        addLocationData
          (fun ps => Except.ok (ps.map fun p =>
            { fireData := p.fireData,
              localizacao := some { municipio := some "Cuiaba", comandoRegional := none,
                                    cidade := none } }))
          (fun _ => Except.error "mapbox") [⟨1, 2, 3, 4⟩]) ∧
    (primaryResolved (fun _ => Except.error "GeoJSON ausente") [⟨1, 2, 3, 4⟩] = false ∧
      addLocationData (fun _ => Except.error "GeoJSON ausente")
          (fun ps => Except.ok (ps.map fun p =>
            { fireData := p.fireData,
              localizacao := { municipio := some "Varzea Grande", comandoRegional := none,
                               cidade := some "Varzea Grande" } }))
          [⟨1, 2, 3, 4⟩] =
        fallbackGeocode
          (fun ps => Except.ok (ps.map fun p =>
            { fireData := p.fireData,
              localizacao := { municipio := some "Varzea Grande", comandoRegional := none,
                               cidade := some "Varzea Grande" } }))
          [⟨1, 2, 3, 4⟩]) :=
  ⟨⟨rfl,
    ((c5_primary_accept_or_batch_fallback
      (fun ps => Except.ok (ps.map fun p =>
        { fireData := p.fireData,
          localizacao := some { municipio := some "Cuiaba", comandoRegional := none,
                                cidade := none } }))
      (fun _ => Except.ok []) (fun _ => Except.error "mapbox") [⟨1, 2, 3, 4⟩]).1 rfl).2⟩,
   ⟨rfl,
    ((c5_primary_accept_or_batch_fallback
      (fun _ => Except.error "GeoJSON ausente")
      (fun ps => Except.ok (ps.map fun p =>
        { fireData := p.fireData,
          localizacao := { municipio := some "Varzea Grande", comandoRegional := none,
                           cidade := some "Varzea Grande" } }))
      (fun ps => Except.ok (ps.map fun p =>
        { fireData := p.fireData,
          localizacao := { municipio := some "Varzea Grande", comandoRegional := none,
                           cidade := some "Varzea Grande" } }))
      [⟨1, 2, 3, 4⟩]).2 rfl).1⟩⟩

/-! ### Claim C6 — primary errors are caught, fallback errors propagate -/

/-- C6: every error of the primary path — a failure of the polygon
collaborator as well as the synthetic `"not fully resolved"` error — is
caught inside `addLocationData` and triggers the fallback instead of
propagating; an error of the fallback `batchGeocode` call is not caught and
propagates to the caller as the result, with no partial enriched data. -/
theorem c6_primary_caught_fallback_propagates
    (batchLocate : List GeoPoint → Except String (List LocatedFire))
    (bg : List GeoPoint → Except String (List GeoResult)) (fires : List Fire) :
    (∀ e, addMunicipalityLocationData batchLocate fires = Except.error e →
      addLocationData batchLocate bg fires = fallbackGeocode bg fires) ∧
    (∀ located, addMunicipalityLocationData batchLocate fires = Except.ok located →
      allLocated located = false →
      addLocationData batchLocate bg fires = fallbackGeocode bg fires) ∧
    (primaryResolved batchLocate fires = false →
      ∀ e', bg (fires.map toPoint) = Except.error e' →
        addLocationData batchLocate bg fires = Except.error e') := by
  refine ⟨?_, ?_, ?_⟩
  · intro e he
    refine addLocationData_of_unresolved batchLocate bg fires ?_
    unfold primaryResolved
    rw [he]
  · intro located hml hall
    refine addLocationData_of_unresolved batchLocate bg fires ?_
    unfold primaryResolved
    rw [hml]
    exact hall
  · intro hres e' hbg
    rw [addLocationData_of_unresolved batchLocate bg fires hres]
    unfold fallbackGeocode
    rw [hbg]

/-- Witness for C6: a polygon pass that resolves only to `"N/A"` (the
synthetic error path) combined with an erroring geocoder makes the geocoder
error the overall result; an erroring polygon pass is caught and routed to
the fallback. -/
theorem c6_primary_caught_fallback_propagates_witness :
    (addMunicipalityLocationData (fun _ => Except.error "GeoJSON ausente") [⟨1, 2, 3, 4⟩] =
        Except.error "GeoJSON ausente" ∧
      addLocationData (fun _ => Except.error "GeoJSON ausente")
          (fun _ => Except.error "mapbox caiu") [⟨1, 2, 3, 4⟩] =
        fallbackGeocode (fun _ => Except.error "mapbox caiu") [⟨1, 2, 3, 4⟩]) ∧
    (addMunicipalityLocationData
        (fun ps => Except.ok (ps.map fun p =>
          { fireData := p.fireData,
            localizacao := some { municipio := some "N/A", comandoRegional := none,
                                  cidade := none } }))
        [⟨1, 2, 3, 4⟩] =
        Except.ok
          [{ fireData := ⟨1, 2, 3, 4⟩,
             localizacao := some { municipio := some "N/A", comandoRegional := none,
                                   cidade := some "N/A" } }] ∧
      allLocated
          [{ fireData := (⟨1, 2, 3, 4⟩ : Fire),
             localizacao := some { municipio := some "N/A", comandoRegional := none,
                                   cidade := some "N/A" } }] = false ∧
      addLocationData
          (fun ps => Except.ok (ps.map fun p =>
            { fireData := p.fireData,
              localizacao := some { municipio := some "N/A", comandoRegional := none,
                                    cidade := none } }))
          (fun _ => Except.error "mapbox caiu") [⟨1, 2, 3, 4⟩] =
        fallbackGeocode (fun _ => Except.error "mapbox caiu") [⟨1, 2, 3, 4⟩]) ∧
    (primaryResolved (fun _ => Except.error "GeoJSON ausente") [⟨1, 2, 3, 4⟩] = false ∧
      addLocationData (fun _ => Except.error "GeoJSON ausente")
          (fun _ => Except.error "mapbox caiu") [⟨1, 2, 3, 4⟩] =
        Except.error "mapbox caiu") :=
  ⟨⟨rfl,
    (c6_primary_caught_fallback_propagates (fun _ => Except.error "GeoJSON ausente")
      (fun _ => Except.error "mapbox caiu") [⟨1, 2, 3, 4⟩]).1 "GeoJSON ausente" rfl⟩,
   ⟨rfl, rfl,
    (c6_primary_caught_fallback_propagates
      (fun ps => Except.ok (ps.map fun p =>
        { fireData := p.fireData,
          localizacao := some { municipio := some "N/A", comandoRegional := none,
                                cidade := none } }))
      (fun _ => Except.error "mapbox caiu") [⟨1, 2, 3, 4⟩]).2.1 _ rfl rfl⟩,
   ⟨rfl,
    (c6_primary_caught_fallback_propagates (fun _ => Except.error "GeoJSON ausente")
      (fun _ => Except.error "mapbox caiu") [⟨1, 2, 3, 4⟩]).2.2 rfl "mapbox caiu" rfl⟩⟩

/-! ### Claim C7 — every enriched record carries a non-empty `cidade`
mirroring its resolved municipality, `"N/A"` when unresolved -/

/-- On the primary path every returned record is `patchCidade` of a located
record, and its `cidade` mirrors the record's municipality: equal to the
municipality when the record carries a non-empty one (including the matcher's
own `"N/A"` no-resolution marker), and exactly `"N/A"` when the municipality
is absent or empty. -/
theorem patchCidade_cidade_spec : ∀ (x : LocatedFire),
    ∃ c, cidadeOf (patchCidade x) = some c ∧ c ≠ "" ∧
      (∀ m, municipioOf (patchCidade x) = some m → m ≠ "" → c = m) ∧
      ((municipioOf (patchCidade x) = none ∨ municipioOf (patchCidade x) = some "") →
        c = "N/A")
  | ⟨_, none⟩ =>
    ⟨"N/A", rfl, by decide, fun _ hm _ => Option.noConfusion hm, fun _ => rfl⟩
  | ⟨_, some ⟨none, _, _⟩⟩ =>
    ⟨"N/A", rfl, by decide, fun _ hm _ => Option.noConfusion hm, fun _ => rfl⟩
  | ⟨_, some ⟨some m, _, _⟩⟩ => by
    by_cases hm : m = ""
    · refine ⟨"N/A", ?_, by decide, ?_, fun _ => rfl⟩
      · show some (if m = "" then "N/A" else m) = some "N/A"
        rw [if_pos hm]
      · intro m' hm' hne
        exact absurd ((Option.some.inj hm').symm.trans hm) hne
    · refine ⟨m, ?_, hm, ?_, ?_⟩
      · show some (if m = "" then "N/A" else m) = some m
        rw [if_neg hm]
      · intro m' hm' _
        exact Option.some.inj hm'
      · intro h
        cases h with
        | inl h₀ => exact Option.noConfusion h₀
        | inr h₀ => exact absurd (Option.some.inj h₀) hm

/-- On the fallback path every returned record carries the geocoded name as
both municipality and `cidade`, so `cidade` equals that municipality and is
`"N/A"` exactly when the resolution produced the no-resolution marker. -/
theorem geoRecord_cidade_spec (fd : Fire) (g : String) (hg : g ≠ "") :
    ∃ c, cidadeOf ⟨fd, some ⟨some g, none, some g⟩⟩ = some c ∧ c ≠ "" ∧
      (∀ m, municipioOf ⟨fd, some ⟨some g, none, some g⟩⟩ = some m → m ≠ "" → c = m) ∧
      ((municipioOf ⟨fd, some ⟨some g, none, some g⟩⟩ = none ∨
        municipioOf ⟨fd, some ⟨some g, none, some g⟩⟩ = some "") → c = "N/A") := by
  refine ⟨g, rfl, hg, ?_, ?_⟩
  · intro m hm _
    exact Option.some.inj hm
  · intro h
    cases h with
    | inl h₀ => exact Option.noConfusion h₀
    | inr h₀ => exact absurd (Option.some.inj h₀) hg

/-- C7: every record returned by `addLocationData` — on the primary path,
where `cidade` is set by the `municipio || "N/A"` defaulting, as well as on
the (spec-modelled) reverse-geocoding fallback path — carries a
`localizacao.cidade` field that is present and a non-empty string, equal to
the record's resolved municipality whenever a non-empty one exists and
exactly `"N/A"` when no resolution is possible (municipality absent or
empty; a resolver that marks no-resolution as `"N/A"` likewise yields
`cidade = "N/A"`). -/
theorem c7_cidade_nonempty
    (batchLocate : List GeoPoint → Except String (List LocatedFire))
    (resolve : Int × Int → Option String) (fires : List Fire) (out : List LocatedFire)
    (hok : addLocationData batchLocate (batchGeocode resolve) fires = Except.ok out) :
    ∀ r ∈ out, ∃ c, cidadeOf r = some c ∧ c ≠ "" ∧
      (∀ m, municipioOf r = some m → m ≠ "" → c = m) ∧
      ((municipioOf r = none ∨ municipioOf r = some "") → c = "N/A") := by
  intro r hr
  by_cases hres : primaryResolved batchLocate fires = true
  · unfold primaryResolved at hres
    cases hml : addMunicipalityLocationData batchLocate fires with
    | error e =>
      rw [hml] at hres
      simp at hres
    | ok located =>
      rw [hml] at hres
      simp only at hres
      rw [addLocationData_of_resolved batchLocate (batchGeocode resolve) fires located
        hml hres] at hok
      injection hok with he
      subst he
      unfold addMunicipalityLocationData at hml
      cases hbl : batchLocate (fires.map toPoint) with
      | error e =>
        rw [hbl] at hml
        exact absurd hml (by simp)
      | ok ls =>
        rw [hbl] at hml
        injection hml with he2
        rw [← he2] at hr
        obtain ⟨x, _, hx⟩ := List.mem_map.mp hr
        rw [← hx]
        exact patchCidade_cidade_spec x
  · have hfb := addLocationData_of_unresolved batchLocate (batchGeocode resolve) fires
      (by simpa using hres)
    rw [hfb] at hok
    unfold fallbackGeocode batchGeocode at hok
    simp only [List.map_map] at hok
    injection hok with he
    rw [← he] at hr
    obtain ⟨p, _, hp⟩ := List.mem_map.mp hr
    rw [← hp]
    exact geoRecord_cidade_spec p
      (geoName (resolve ((toPoint p).longitude, (toPoint p).latitude)))
      (geoName_ne_empty _)

/-- Witness for C7: a two-record batch where the polygon pass leaves every
record unresolved, so the modelled geocoder enriches the whole batch; one
record resolves to a municipality that `cidade` mirrors, the other gets
exactly `"N/A"`, and both carry a present, non-empty `cidade`. -/
theorem c7_cidade_nonempty_witness :
    (addLocationData
        (fun ps => Except.ok (ps.map fun p =>
          { fireData := p.fireData, localizacao := none }))
        (batchGeocode (fun xy => if xy.1 = 1 then some "Sinop" else none))
        [⟨10, 1, 0, 0⟩, ⟨20, 2, 0, 1⟩] =
      Except.ok
        [{ fireData := ⟨10, 1, 0, 0⟩,
           localizacao := some { municipio := some "Sinop", comandoRegional := none,
                                 cidade := some "Sinop" } },
         { fireData := ⟨20, 2, 0, 1⟩,
           localizacao := some { municipio := some "N/A", comandoRegional := none,
                                 cidade := some "N/A" } }]) ∧
    (∀ r ∈
      [({ fireData := ⟨10, 1, 0, 0⟩,
          localizacao := some { municipio := some "Sinop", comandoRegional := none,
                                cidade := some "Sinop" } } : LocatedFire),
       { fireData := ⟨20, 2, 0, 1⟩,
         localizacao := some { municipio := some "N/A", comandoRegional := none,
                               cidade := some "N/A" } }],
      ∃ c, cidadeOf r = some c ∧ c ≠ "" ∧
        (∀ m, municipioOf r = some m → m ≠ "" → c = m) ∧
        ((municipioOf r = none ∨ municipioOf r = some "") → c = "N/A")) :=
  ⟨rfl,
    c7_cidade_nonempty
      (fun ps => Except.ok (ps.map fun p =>
        { fireData := p.fireData, localizacao := none }))
      (fun xy => if xy.1 = 1 then some "Sinop" else none)
      [⟨10, 1, 0, 0⟩, ⟨20, 2, 0, 1⟩] _ rfl⟩

end MonitoraMT
